import Mathlib

/-!
Verification development for the GPU texture cache of duckstation
(`src/core/gpu_hw_texture_cache.cpp`).  The definitions below are shallow
embeddings of the corresponding C++ functions; each definition's doc comment
names the function and line range it embeds.  Rectangles (`GSVector4i` used
as a rectangle) are modelled with exact integer coordinates, the rectangle
helpers (`rempty`, `rintersect`, `runion`, `rcontains`, `eq`) follow the
gsvector semantics: a rectangle is the half-open integer box
[l, r) x [t, b).
-/

namespace GPUTextureCache

/-- Model of `GSVector4i` used as a rectangle: x = left, y = top, z = right,
w = bottom. -/
structure Rect where
  l : Int
  t : Int
  r : Int
  b : Int
deriving DecidableEq, Repr

/-- gsvector `rempty()`: a rectangle is empty iff its width or height is
non-positive. -/
def Rect.rempty (a : Rect) : Bool :=
  a.r ≤ a.l || a.b ≤ a.t

/-- gsvector `rintersect`: component-wise max of the top-left corners and min
of the bottom-right corners. -/
def Rect.rintersect (a c : Rect) : Rect :=
  ⟨max a.l c.l, max a.t c.t, min a.r c.r, min a.b c.b⟩

/-- gsvector `rintersects`: the intersection is non-empty. -/
def Rect.rintersects (a c : Rect) : Bool :=
  !(a.rintersect c).rempty

/-- gsvector `runion`: component-wise min of the top-left corners and max of
the bottom-right corners. -/
def Rect.runion (a c : Rect) : Rect :=
  ⟨min a.l c.l, min a.t c.t, max a.r c.r, max a.b c.b⟩

/-- gsvector `rcontains`: `a.rcontains c` holds when `c` is inside `a`. -/
def Rect.rcontains (a c : Rect) : Bool :=
  decide (a.l ≤ c.l) && decide (a.t ≤ c.t) && decide (c.r ≤ a.r) && decide (c.b ≤ a.b)

/-- Membership of an integer point in a rectangle (half-open box). -/
def Rect.memP (a : Rect) (x y : Int) : Prop :=
  a.l ≤ x ∧ x < a.r ∧ a.t ≤ y ∧ y < a.b

instance (a : Rect) (x y : Int) : Decidable (a.memP x y) := by
  unfold Rect.memP
  infer_instance

/-- Modelled from the spec: `GPU_HW::INVALID_RECT` (header `gpu_hw.h` is not
part of the sources), the all-invalid rectangle made of s32 extrema that every
`runion` replaces and that intersects nothing. -/
def INVALID_RECT : Rect :=
  ⟨2147483647, 2147483647, -2147483648, -2147483648⟩

/-- Model of `VRAMWrite::PaletteRecord` (gpu_hw_texture_cache.cpp:67-78),
keeping the fields the claims are about: the recorded rectangle and the
source key. -/
structure PaletteRecord where
  rect : Rect
  key : Nat
deriving DecidableEq, Repr

/-- Model of `VRAMWrite` (gpu_hw_texture_cache.cpp:61-89); the content hash is
abstracted to a `Nat` and the page back-references are kept implicitly by the
page lists of the states that use writes. -/
structure VRAMWrite where
  active_rect : Rect
  write_rect : Rect
  hash : Nat
  num_splits : Nat
  palette_records : List PaletteRecord
deriving DecidableEq, Repr

/-- The four candidate remainder rectangles computed by `SplitVRAMWrite`
(gpu_hw_texture_cache.cpp:1623-1650): margins `to_left/to_right/to_top/
to_bottom` of `written` inside `active`, then either the top/bottom-first or
the left/right-first decomposition depending on which pair of margins is
larger. -/
def splitRemainders (active written : Rect) : List Rect :=
  let to_left := written.l - active.l
  let to_right := active.r - written.r
  let to_top := written.t - active.t
  let to_bottom := active.b - written.b
  if max to_top to_bottom > max to_left to_right then
    [⟨active.l, active.t, active.r, written.t⟩,
     ⟨active.l, written.b, active.r, active.b⟩,
     ⟨active.l, active.t + to_top, active.l + to_left, active.b - to_bottom⟩,
     ⟨active.r - to_right, active.t + to_top, active.r, active.b - to_bottom⟩]
  else
    [⟨active.l, active.t, written.l, active.b⟩,
     ⟨written.r, active.t, active.r, active.b⟩,
     ⟨active.l + to_left, active.t + to_top, written.r - to_right, active.t - to_top⟩,
     ⟨active.l + to_left, active.b - to_bottom, written.r - to_right, active.b⟩]

/-- Construction of one new `VRAMWrite` fragment in the `SplitVRAMWrite` loop
(gpu_hw_texture_cache.cpp:1657-1671): the fragment inherits `write_rect` and
`hash`, takes the incremented split counter, and copies palette records by
iterating `it->palette_records` - the fragment's own vector, which is still
empty at that point (only `reserve` was called on it), so the copy loop runs
zero times. -/
def splitFragment (entry : VRAMWrite) (splitr : Rect) : VRAMWrite :=
  { write_rect := entry.write_rect
    active_rect := splitr
    hash := entry.hash
    num_splits := entry.num_splits + 1
    palette_records :=
      (([] : List PaletteRecord)).filter (fun prec => prec.rect.rintersects splitr) }

/-- The list of new writes created by `SplitVRAMWrite`
(gpu_hw_texture_cache.cpp:1612-1685): each non-`rempty` remainder rectangle
becomes one fragment; the original write is unlinked from all pages and
deleted. -/
def splitVRAMWrite (entry : VRAMWrite) (written : Rect) : List VRAMWrite :=
  ((splitRemainders entry.active_rect written).filter (fun sr => !sr.rempty)).map
    (fun sr => splitFragment entry sr)

/-- C2: for active rectangle A = (0,0,64,16) and split rectangle
S = (16,4,48,16) (a partial overlap with margins 16/16 left/right and 4/0
top/bottom, so the left/right-first direction is chosen), `SplitVRAMWrite`
produces only the two side remainders (0,0,16,16) and (48,0,64,16); the point
(16,0) lies in A but neither in S nor in any produced remainder, so the union
of the remainders does not equal A minus S - the left/right-first
decomposition leaves a gap, refuting the claim. -/
theorem C2_split_leaves_gap :
    (splitVRAMWrite
        { active_rect := ⟨0, 0, 64, 16⟩, write_rect := ⟨0, 0, 64, 16⟩,
          hash := 0, num_splits := 0, palette_records := [] }
        ⟨16, 4, 48, 16⟩).map (fun w => w.active_rect)
      = [⟨0, 0, 16, 16⟩, ⟨48, 0, 64, 16⟩]
    ∧ (Rect.memP ⟨0, 0, 64, 16⟩ 16 0)
    ∧ ¬ (Rect.memP ⟨16, 4, 48, 16⟩ 16 0)
    ∧ ¬ (Rect.memP ⟨0, 0, 16, 16⟩ 16 0)
    ∧ ¬ (Rect.memP ⟨48, 0, 64, 16⟩ 16 0) := by
  decide

/-- C6: splitting a write that carries one palette record whose rectangle
intersects every remainder: the fragments inherit `write_rect`, `hash` and the
incremented split counter, but carry no palette records at all (the copy loop
iterates the new write's own empty vector), refuting the claim that each
fragment carries exactly the intersecting records of the original. -/
theorem C6_split_loses_palette_records :
    (splitVRAMWrite
        { active_rect := ⟨0, 0, 64, 16⟩, write_rect := ⟨0, 0, 64, 16⟩,
          hash := 7, num_splits := 0,
          palette_records := [⟨⟨0, 0, 64, 16⟩, 3⟩] }
        ⟨16, 4, 48, 16⟩)
      = [{ active_rect := ⟨0, 0, 16, 16⟩, write_rect := ⟨0, 0, 64, 16⟩,
           hash := 7, num_splits := 1, palette_records := [] },
         { active_rect := ⟨48, 0, 64, 16⟩, write_rect := ⟨0, 0, 64, 16⟩,
           hash := 7, num_splits := 1, palette_records := [] }]
    ∧ Rect.rintersects ⟨0, 0, 64, 16⟩ ⟨0, 0, 16, 16⟩ = true
    ∧ Rect.rintersects ⟨0, 0, 64, 16⟩ ⟨48, 0, 64, 16⟩ = true := by
  decide

/-- Model of `HashCacheEntry` (gpu_hw_texture_cache.cpp:53-59): the GPU
texture is abstracted to its VRAM usage (`GPUTexture::GetVRAMUsage`). -/
structure HCEntry where
  refCount : Nat
  lastUsedFrame : Nat
  vramUsage : Nat
deriving DecidableEq, Repr

/-- The hash cache together with its memory accounting
(`s_hash_cache` / `s_hash_cache_memory_usage`): entries are keyed by an
abstract `Nat` hash-cache key and kept in iteration order. -/
structure HCState where
  entries : List (Nat × HCEntry)
  memUsage : Nat
deriving DecidableEq, Repr

/-- Constant `MAX_HASH_CACHE_AGE` (gpu_hw_texture_cache.cpp:2062). -/
def MAX_HASH_CACHE_AGE : Nat := 600

/-- Constant `MAX_HASH_CACHE_SIZE` (gpu_hw_texture_cache.cpp:2065). -/
def MAX_HASH_CACHE_SIZE : Nat := 500

/-- Constant `s_max_hash_cache_memory_usage` (gpu_hw_texture_cache.cpp:503): 1 GiB. -/
def maxHashCacheMemoryUsage : Nat := 1024 * 1024 * 1024

/-- The over-budget condition recomputed inside `Compact`
(gpu_hw_texture_cache.cpp:2067-2068 and 2089-2090). -/
def needPurge (numEntries mem : Nat) : Bool :=
  decide (numEntries > MAX_HASH_CACHE_SIZE) || decide (mem ≥ maxHashCacheMemoryUsage)

/-- The main loop of `Compact` (gpu_hw_texture_cache.cpp:2075-2096): walks the
entries; an entry with ref count 0 unused for longer than the age window is
removed immediately; otherwise, while the over-budget flag is still set, the
flag is recomputed with the current size/memory and the surviving entry is
appended to the purge candidate list - note the candidate is recorded
regardless of its ref count.  Returns (surviving entries, live count, memory
usage, final flag, purge list of (key, last-used frame)). -/
def compactScan (minFrame : Nat) :
    List (Nat × HCEntry) → Nat → Nat → Bool → List (Nat × Nat) →
    List (Nat × HCEntry) × Nat × Nat × Bool × List (Nat × Nat)
  | [], size, mem, flag, plist => ([], size, mem, flag, plist)
  | (k, e) :: rest, size, mem, flag, plist =>
    if e.refCount = 0 ∧ e.lastUsedFrame < minFrame then
      compactScan minFrame rest (size - 1) (mem - e.vramUsage) flag plist
    else
      let flag' := if flag then needPurge size mem else flag
      let plist' := if flag ∧ flag' = true then plist ++ [(k, e.lastUsedFrame)] else plist
      let out := compactScan minFrame rest size mem flag' plist'
      ((k, e) :: out.1, out.2)

/-- Removal of one entry by key, as `RemoveFromHashCache`
(gpu_hw_texture_cache.cpp:2041-2051) seen at the map level: the entry is
erased and its VRAM usage returned so the accounting can be decreased. -/
def removeKey : List (Nat × HCEntry) → Nat → List (Nat × HCEntry) × Nat
  | [], _ => ([], 0)
  | (k', e) :: rest, k =>
    if k' = k then (rest, e.vramUsage)
    else
      let out := removeKey rest k
      ((k', e) :: out.1, out.2)

/-- The purge loop of `Compact` (gpu_hw_texture_cache.cpp:2104-2115): while
still over budget, remove the next entry of the sorted purge list; stop when
the list is exhausted. -/
def compactPurge : List (Nat × Nat) → List (Nat × HCEntry) → Nat →
    List (Nat × HCEntry) × Nat
  | [], es, mem => (es, mem)
  | (k, _) :: rest, es, mem =>
    if needPurge es.length mem then
      let out := removeKey es k
      compactPurge rest out.1 (mem - out.2)
    else (es, mem)

/-- Stable insertion of a purge candidate by ascending last-used frame,
modelling the comparator of the `std::sort` call in `Compact`
(gpu_hw_texture_cache.cpp:2106-2107). -/
def purgeInsert (p : Nat × Nat) : List (Nat × Nat) → List (Nat × Nat)
  | [] => [p]
  | q :: rest => if p.2 < q.2 then p :: q :: rest else q :: purgeInsert p rest

/-- Sorting of the purge candidate list by last-used frame ascending. -/
def purgeSort : List (Nat × Nat) → List (Nat × Nat)
  | [] => []
  | p :: rest => purgeInsert p (purgeSort rest)

/-- Embedding of `GPUTextureCache::Compact` (gpu_hw_texture_cache.cpp:2059-
2115): age-based removal pass with in-flight purge-candidate collection, then
- if still over budget - the candidates sorted by last-used frame ascending
are evicted until under budget. -/
def compact (frameNumber : Nat) (st : HCState) : HCState :=
  let mightPurge0 := needPurge st.entries.length st.memUsage
  let minFrame := if frameNumber > MAX_HASH_CACHE_AGE then frameNumber - MAX_HASH_CACHE_AGE else 0
  let scan := compactScan minFrame st.entries st.entries.length st.memUsage mightPurge0 []
  let kept := scan.1
  let mem1 := scan.2.2.1
  let flag1 := scan.2.2.2.1
  let plist := scan.2.2.2.2
  if flag1 then
    let out := compactPurge (purgeSort plist) kept mem1
    ⟨out.1, out.2⟩
  else ⟨kept, mem1⟩

/-- C1: a reachable cache state with two entries - entry 0 has ref count 1,
last used this frame, and 1 GiB of texture memory; entry 1 has ref count 0 -
is over the memory budget, so `Compact` collects both entries as purge
candidates (no ref-count filter in the candidate loop), sorts them by
last-used frame and evicts entry 0 first: an entry with reference count
greater than zero is evicted, refuting the claim. -/
theorem C1_compact_evicts_referenced_entry :
    (compact 0
        ⟨[(0, ⟨1, 0, maxHashCacheMemoryUsage⟩), (1, ⟨0, 5, 0⟩)],
         maxHashCacheMemoryUsage⟩).entries
      = [(1, ⟨0, 5, 0⟩)]
    ∧ (⟨1, 0, maxHashCacheMemoryUsage⟩ : HCEntry).refCount = 1 := by
  decide

/-- Projection of the VRAM write tracker state used by `WriteVRAM`'s merge
fast path: the set of live (page-linked) writes, identified by allocation
order, and the `s_last_vram_write` pointer
(gpu_hw_texture_cache.cpp:508). -/
structure WTState where
  live : List Nat
  last : Option Nat
  nextId : Nat
deriving DecidableEq, Repr

/-- Effect of `WriteVRAM` when no merge happens (gpu_hw_texture_cache.cpp:909-921): a
new write is allocated, linked into its pages, and becomes
`s_last_vram_write`. -/
def writeVRAMNew (st : WTState) : WTState :=
  { live := st.live ++ [st.nextId], last := some st.nextId, nextId := st.nextId + 1 }

/-- Effect of `SplitVRAMWrite` on liveness (gpu_hw_texture_cache.cpp:1651-1685):
the fragments are new live writes, the original is unlinked from all pages and
deleted - and `s_last_vram_write` is left untouched (there is no reset
corresponding to the one in `RemoveVRAMWrite`, line 1783). -/
def splitWriteLive (st : WTState) (id : Nat) (numFrags : Nat) : WTState :=
  { live := (st.live.filter (fun w => w ≠ id)) ++ (List.range numFrags).map (fun i => st.nextId + i),
    last := st.last,
    nextId := st.nextId + numFrags }

/-- Effect of `RemoveVRAMWrite` on liveness (gpu_hw_texture_cache.cpp:1740-
1785): the write is unlinked and deleted, and `s_last_vram_write` is reset to
null when it pointed at the removed write (line 1783). -/
def removeWriteLive (st : WTState) (id : Nat) : WTState :=
  { live := st.live.filter (fun w => w ≠ id),
    last := if st.last = some id then none else st.last,
    nextId := st.nextId }

/-- The claimed invariant: `s_last_vram_write` is null or refers to a live,
page-linked write. -/
def lastLiveInv (st : WTState) : Bool :=
  match st.last with
  | none => true
  | some id => decide (id ∈ st.live)

/-- C10: `RemoveVRAMWrite` does preserve the last-write liveness invariant,
but `SplitVRAMWrite` does not: after a `WriteVRAM` creating write 0 and a
partial overwrite that splits it into two fragments, `s_last_vram_write`
still holds the deleted write 0, which is no longer linked into any page -
the invariant is violated and a subsequent `WriteVRAM` would merge into a
destroyed write, refuting the claim. -/
theorem C10_last_write_dangles_after_split :
    (∀ (st : WTState) (id : Nat), lastLiveInv st = true →
        lastLiveInv (removeWriteLive st id) = true)
    ∧ lastLiveInv (writeVRAMNew ⟨[], none, 0⟩) = true
    ∧ lastLiveInv (splitWriteLive (writeVRAMNew ⟨[], none, 0⟩) 0 2) = false
    ∧ (splitWriteLive (writeVRAMNew ⟨[], none, 0⟩) 0 2).last = some 0
    ∧ 0 ∉ (splitWriteLive (writeVRAMNew ⟨[], none, 0⟩) 0 2).live := by
  refine ⟨?_, by decide, by decide, by decide, by decide⟩
  intro st id h
  unfold lastLiveInv removeWriteLive at *
  cases hl : st.last with
  | none => simp [hl]
  | some j =>
    rw [hl] at h
    by_cases hj : (some j : Option Nat) = some id
    · simp [hl, hj]
    · simp only [hl, hj, if_neg]
      have hmem : j ∈ st.live := of_decide_eq_true h
      have hne : j ≠ id := by
        intro hEq
        exact hj (by rw [hEq])
      simp [List.mem_filter, hmem, hne]

/-- C10 witness: the remove-preservation part of the theorem applied at a
concrete state with a live last write. -/
theorem C10_last_write_dangles_after_split_witness :
    lastLiveInv (removeWriteLive ⟨[0, 1], some 1, 2⟩ 0) = true :=
  C10_last_write_dangles_after_split.1 ⟨[0, 1], some 1, 2⟩ 0 (by decide)

/-- Modelled from the spec: the VRAM surface is 1024x512 (`VRAM_WIDTH`,
`VRAM_HEIGHT` come from headers that are not part of the sources). -/
def VRAM_WIDTH : Nat := 1024

/-- Modelled from the spec: fixed page tiling of the VRAM surface; a page is
64x256 texels and pages are laid out 16 wide (`VRAM_PAGE_WIDTH`,
`VRAM_PAGE_HEIGHT`, `VRAM_PAGES_WIDE` come from headers that are not part of
the sources). -/
def VRAM_PAGE_WIDTH : Nat := 64

/-- Modelled from the spec: page height in texels. -/
def VRAM_PAGE_HEIGHT : Nat := 256

/-- Modelled from the spec: number of pages per VRAM row. -/
def VRAM_PAGES_WIDE : Nat := 16

/-- The page indices visited by `LoopRectPages`/`LoopRectPagesWithEarlyExit`
(gpu_hw_texture_cache.cpp:408-470): pages of the columns `left/PW` to
`(right-1)/PW` and the rows `top/PH` to `(bottom-1)/PH`. -/
def rectPageList (rc : Rect) : List Nat :=
  let sx := rc.l.toNat / VRAM_PAGE_WIDTH
  let ex := (rc.r - 1).toNat / VRAM_PAGE_WIDTH
  let sy := rc.t.toNat / VRAM_PAGE_HEIGHT
  let ey := (rc.b - 1).toNat / VRAM_PAGE_HEIGHT
  ((List.range (ey + 1 - sy)).map (fun dy => sy + dy)).flatMap
    (fun py => ((List.range (ex + 1 - sx)).map (fun dx => sx + dx)).map
      (fun px => py * VRAM_PAGES_WIDE + px))

/-- The per-source predicate of the sampled-UV double-check inside
`TryMergeVRAMWrite` (gpu_hw_texture_cache.cpp:1710-1713): the loop keeps
going (merge stays allowed) while this returns true.  The embedding keeps the
condition exactly as written:
`!src->active_uv_rect.eq(INVALID_RECT) || !src->active_uv_rect.rintersects(entry->active_rect)`. -/
def mergeSourceCheck (activeRect uv : Rect) : Bool :=
  !(decide (uv = INVALID_RECT)) || !(uv.rintersects activeRect)

/-- The whole sampled-UV guard of `TryMergeVRAMWrite`
(gpu_hw_texture_cache.cpp:1708-1716): iterate all sources of all pages the
write's active rectangle touches with early exit; the merge is rejected when
some source fails `mergeSourceCheck`. -/
def mergeSampledGuard (pages : Nat → List Rect) (activeRect : Rect) : Bool :=
  (rectPageList activeRect).all (fun pn => (pages pn).all (fun uv => mergeSourceCheck activeRect uv))

/-- The coalescing bounds from the local configuration
(`s_config.max_vram_write_coalesce_width/height`). -/
structure MergeConfig where
  coalesceWidth : Nat
  coalesceHeight : Nat
deriving DecidableEq, Repr

/-- Embedding of `TryMergeVRAMWrite` (gpu_hw_texture_cache.cpp:1687-1738),
with `pages` giving the active-UV rectangles of the sources registered on
each page and `hashRect` the model of `HashRect` over current VRAM content:
reject when the write was ever split; require exact vertical or horizontal
adjacency within the configured coalesce bounds; run the sampled-UV guard;
then re-link the write with the union rectangle and a recomputed hash.
Returns the merged write on success. -/
def tryMergeVRAMWrite (cfg : MergeConfig) (pages : Nat → List Rect)
    (hashRect : Rect → Nat) (entry : VRAMWrite) (written : Rect) : Option VRAMWrite :=
  if entry.num_splits ≠ 0 then none
  else
    let mergeVertical :=
      decide (written.b - written.t ≤ (cfg.coalesceHeight : Int)) &&
      decide (entry.write_rect.l = written.l) &&
      decide (entry.write_rect.r = written.r) &&
      decide (entry.write_rect.b = written.t)
    let mergeHorizontal :=
      decide (written.r - written.l ≤ (cfg.coalesceWidth : Int)) &&
      decide (entry.write_rect.t = written.t) &&
      decide (entry.write_rect.b = written.b) &&
      decide (entry.write_rect.r = written.l)
    if !mergeVertical && !mergeHorizontal then none
    else if !(mergeSampledGuard pages entry.active_rect) then none
    else
      let newRect := entry.write_rect.runion written
      some { entry with
              active_rect := newRect,
              write_rect := newRect,
              hash := hashRect newRect }

/-- C3: the sampled-UV guard of `TryMergeVRAMWrite` is a tautology - for a
source that has sampled (`uv ≠ INVALID_RECT`) the first disjunct is already
true, and for one that has not, `INVALID_RECT` intersects nothing - so the
check never rejects a merge.  Concretely, a never-split write (0,0,256,8)
with a source on page 0 whose sampled UV rectangle (0,0,64,8) overlaps it is
still merged with the exactly-adjacent incoming write (0,8,256,16), refuting
the claim that merges are accepted only when no source has sampled
overlapping UV area. -/
theorem C3_merge_ignores_sampled_sources :
    (∀ (activeRect uv : Rect), mergeSourceCheck activeRect uv = true)
    ∧ (tryMergeVRAMWrite ⟨256, 256⟩
        (fun pn => if pn = 0 then [⟨0, 0, 64, 8⟩] else [])
        (fun _ => 11)
        { active_rect := ⟨0, 0, 256, 8⟩, write_rect := ⟨0, 0, 256, 8⟩,
          hash := 5, num_splits := 0, palette_records := [] }
        ⟨0, 8, 256, 16⟩
        = some { active_rect := ⟨0, 0, 256, 16⟩, write_rect := ⟨0, 0, 256, 16⟩,
                 hash := 11, num_splits := 0, palette_records := [] })
    ∧ ((⟨0, 0, 64, 8⟩ : Rect) ≠ INVALID_RECT)
    ∧ (Rect.rintersects ⟨0, 0, 64, 8⟩ ⟨0, 0, 256, 8⟩ = true)
    ∧ (0 ∈ rectPageList ⟨0, 0, 256, 8⟩) := by
  refine ⟨?_, by decide, by decide, by decide, by decide⟩
  intro a uv
  unfold mergeSourceCheck
  by_cases h : uv = INVALID_RECT
  · subst h
    have hemp : (INVALID_RECT.rintersect a).rempty = true := by
      unfold INVALID_RECT Rect.rintersect Rect.rempty
      simp only [Bool.or_eq_true, decide_eq_true_eq]
      left
      calc min (-2147483648 : Int) a.r ≤ -2147483648 := min_le_left _ _
        _ ≤ 2147483647 := by norm_num
        _ ≤ max 2147483647 a.l := le_max_left _ _
    unfold Rect.rintersects
    rw [hemp]
    simp
  · simp [h]

/-- Embedding of `RectDistance` (gpu_hw_texture_cache.cpp:492-499) over exact
rationals (the float computation is exact for the small integer coordinates
involved).  The code computes the centre of `lhs`, then a second point from
`rhs` whose offset term subtracts `lhs`'s top-left corner instead of `rhs`'s
(`frhs.zw() - flhs.xy()`), and returns the dot product of the two points -
not any distance. -/
def rectDistance (lhs rhs : Rect) : ℚ :=
  let clx : ℚ := (lhs.l : ℚ) + ((lhs.r : ℚ) - (lhs.l : ℚ)) * (1 / 2)
  let cly : ℚ := (lhs.t : ℚ) + ((lhs.b : ℚ) - (lhs.t : ℚ)) * (1 / 2)
  let crx : ℚ := (rhs.l : ℚ) + ((rhs.r : ℚ) - (lhs.l : ℚ)) * (1 / 2)
  let cry : ℚ := (rhs.t : ℚ) + ((rhs.b : ℚ) - (lhs.t : ℚ)) * (1 / 2)
  clx * crx + cly * cry

/-- The minimum-`RectDistance` loop of `AddDrawnRectangle`
(gpu_hw_texture_cache.cpp:831-839): candidate starts at 0 with the distance
to the first draw rect; every later index with a strictly smaller
`RectDistance` becomes the candidate. -/
def pickClosestAux (rc : Rect) : List Rect → Nat → Nat → ℚ → Nat
  | [], _, cand, _ => cand
  | d :: ds, i, cand, closest =>
    let dist := rectDistance rc d
    if dist < closest then pickClosestAux rc ds (i + 1) i dist
    else pickClosestAux rc ds (i + 1) cand closest

/-- The "closest" slot picked when a page is out of draw-rect slots
(gpu_hw_texture_cache.cpp:828-840). -/
def pickClosest (rc : Rect) : List Rect → Nat
  | [] => 0
  | d :: ds => pickClosestAux rc ds 1 0 (rectDistance rc d)

/-- The containment/clip scan over the existing draw rects in
`AddDrawnRectangle` (gpu_hw_texture_cache.cpp:812-827): returns `none` when
the incoming rect is already contained in a slot (early return), otherwise
the index of the last slot that intersects the clip rectangle, if any. -/
def drawRectScan (rc clip : Rect) : List Rect → Nat → Option Nat → Option (Option Nat)
  | [], _, cand => some cand
  | d :: ds, i, cand =>
    if d.rcontains rc then none
    else if clip.rintersects d then drawRectScan rc clip ds (i + 1) (some i)
    else drawRectScan rc clip ds (i + 1) cand

/-- The slot of `draw_rects` chosen by `AddDrawnRectangle` to absorb the
incoming rectangle when all `NUM_PAGE_DRAW_RECTS` slots are occupied
(gpu_hw_texture_cache.cpp:810-845): `none` when the rectangle is already
contained in a slot (no-op), otherwise the clip-intersecting slot or, when
none qualifies, the slot with minimal `RectDistance`. -/
def addDrawnRectCandidate (rc clip : Rect) (draws : List Rect) : Option Nat :=
  match drawRectScan rc clip draws 0 none with
  | none => none
  | some (some i) => some i
  | some none => some (pickClosest rc draws)

/-- Claim-side definition, from the spec's words: the squared distance
between the two rectangles' centroids. -/
def specCentroidDistSq (a c : Rect) : ℚ :=
  let ax : ℚ := (a.l : ℚ) + ((a.r : ℚ) - (a.l : ℚ)) * (1 / 2)
  let ay : ℚ := (a.t : ℚ) + ((a.b : ℚ) - (a.t : ℚ)) * (1 / 2)
  let cx : ℚ := (c.l : ℚ) + ((c.r : ℚ) - (c.l : ℚ)) * (1 / 2)
  let cy : ℚ := (c.t : ℚ) + ((c.b : ℚ) - (c.t : ℚ)) * (1 / 2)
  (ax - cx) * (ax - cx) + (ay - cy) * (ay - cy)

/-- Claim-side definition, from the spec's words: the first slot whose
centroid is nearest to the incoming rectangle's centroid. -/
def specNearestCentroidAux (rc : Rect) : List Rect → Nat → Nat → ℚ → Nat
  | [], _, cand, _ => cand
  | d :: ds, i, cand, closest =>
    let dist := specCentroidDistSq rc d
    if dist < closest then specNearestCentroidAux rc ds (i + 1) i dist
    else specNearestCentroidAux rc ds (i + 1) cand closest

/-- Claim-side selection of the nearest-centroid slot. -/
def specNearestCentroid (rc : Rect) : List Rect → Nat
  | [] => 0
  | d :: ds => specNearestCentroidAux rc ds 1 0 (specCentroidDistSq rc d)

/-- C5: with four occupied slots, incoming rect (99,99,101,101) (centre
(100,100)), a clip rectangle away from every slot, and slots
[(0,0,2,2), (99,99,101,100), (200,200,202,202), (300,300,302,302)], the
incoming rect is contained in no slot and no slot meets the clip rect, yet
`AddDrawnRectangle` absorbs into slot 0 - whose centroid is about 140 texels
away - because `RectDistance` is a dot product that is smallest for
rectangles near the origin, while the nearest-centroid slot is slot 1
(centroid distance one half).  This refutes the claim that the chosen slot
minimises centroid distance. -/
theorem C5_candidate_is_not_nearest_centroid :
    (addDrawnRectCandidate ⟨99, 99, 101, 101⟩ ⟨500, 400, 510, 410⟩
        [⟨0, 0, 2, 2⟩, ⟨99, 99, 101, 100⟩, ⟨200, 200, 202, 202⟩, ⟨300, 300, 302, 302⟩]
      = some 0)
    ∧ (specNearestCentroid ⟨99, 99, 101, 101⟩
        [⟨0, 0, 2, 2⟩, ⟨99, 99, 101, 100⟩, ⟨200, 200, 202, 202⟩, ⟨300, 300, 302, 302⟩]
      = 1)
    ∧ specCentroidDistSq ⟨99, 99, 101, 101⟩ ⟨99, 99, 101, 100⟩
        < specCentroidDistSq ⟨99, 99, 101, 101⟩ ⟨0, 0, 2, 2⟩
    ∧ (Rect.rcontains ⟨0, 0, 2, 2⟩ ⟨99, 99, 101, 101⟩ = false)
    ∧ (Rect.rcontains ⟨99, 99, 101, 100⟩ ⟨99, 99, 101, 101⟩ = false)
    ∧ (Rect.rcontains ⟨200, 200, 202, 202⟩ ⟨99, 99, 101, 101⟩ = false)
    ∧ (Rect.rcontains ⟨300, 300, 302, 302⟩ ⟨99, 99, 101, 101⟩ = false)
    ∧ (Rect.rintersects ⟨500, 400, 510, 410⟩ ⟨0, 0, 2, 2⟩ = false)
    ∧ (Rect.rintersects ⟨500, 400, 510, 410⟩ ⟨99, 99, 101, 100⟩ = false)
    ∧ (Rect.rintersects ⟨500, 400, 510, 410⟩ ⟨200, 200, 202, 202⟩ = false)
    ∧ (Rect.rintersects ⟨500, 400, 510, 410⟩ ⟨300, 300, 302, 302⟩ = false) := by
  refine ⟨?_, ?_, by norm_num [specCentroidDistSq], by decide, by decide, by decide,
    by decide, by decide, by decide, by decide, by decide⟩
  · norm_num [addDrawnRectCandidate, drawRectScan, pickClosest, pickClosestAux,
      rectDistance, Rect.rcontains, Rect.rintersects, Rect.rintersect, Rect.rempty]
  · norm_num [specNearestCentroid, specNearestCentroidAux, specCentroidDistSq]

/-- Model of a `Source` (gpu_hw_texture_cache.h data, fields used here):
`id` stands for the object's address (pointer identity), `key` for the
`SourceKey`, and `hck` for the hash-cache key the source holds a reference
into (`from_hash_cache`). -/
structure SrcM where
  id : Nat
  key : Nat
  hck : Nat
deriving DecidableEq, Repr

/-- State of one page's source list together with the hash cache, as used by
`LookupSource`/`CreateSource`/`LookupHashCache`: `srcs` is the page's
intrusive source list (head first), `cache` maps hash-cache keys to their
last-used frame, `mem` is `s_hash_cache_memory_usage`, `allocOk` models
whether `GPUDevice::FetchTexture` succeeds. -/
structure TCState where
  srcs : List SrcM
  cache : List (Nat × Nat)
  mem : Nat
  nextId : Nat
  frame : Nat
  allocOk : Bool
deriving DecidableEq, Repr

/-- Content hash of a page/palette under an unchanged VRAM: a pure function
of the source key (abstracting `HashPage`/`HashPalette`, whose inputs are
fixed between the two lookups the claim is about). -/
def hashOf (k : Nat) : Nat := k

/-- VRAM usage charged for a freshly fetched page texture (abstract
positive constant). -/
def texUsage : Nat := 1

/-- Embedding of `LookupHashCache` (gpu_hw_texture_cache.cpp:2006-2039): map
lookup by key; on a miss, texture allocation is attempted first - on failure
the function returns null BEFORE the memory accounting is increased and
BEFORE the entry is inserted; on success the entry is inserted with last-used
frame 0.  Returns (found key if any, cache, memory usage). -/
def lookupHashCacheM (allocOk : Bool) (cache : List (Nat × Nat)) (mem : Nat)
    (hk : Nat) : Option Nat × List (Nat × Nat) × Nat :=
  match cache.find? (fun e => e.1 = hk) with
  | some e => (some e.1, cache, mem)
  | none =>
    if allocOk then (some hk, (hk, 0) :: cache, mem + texUsage)
    else (none, cache, mem)

/-- Embedding of `CreateSource` (gpu_hw_texture_cache.cpp:1419-1484): hash the
key's page/palette, look up the hash cache (null result is propagated), then
build a new `Source` and prepend it to the page's source list
(`LoopXWrappedPages` visits `key.page` first and `add_page_ref` uses
`ListPrepend`). -/
def createSource (k : Nat) (st : TCState) : Option SrcM × TCState :=
  match lookupHashCacheM st.allocOk st.cache st.mem (hashOf k) with
  | (none, c', m') => (none, { st with cache := c', mem := m' })
  | (some _, c', m') =>
    (some ⟨st.nextId, k, hashOf k⟩,
     { st with cache := c', mem := m',
               srcs := (⟨st.nextId, k, hashOf k⟩ : SrcM) :: st.srcs,
               nextId := st.nextId + 1 })

/-- The scan of the page's source list in `LookupSource`
(gpu_hw_texture_cache.cpp:1195-1204): find the first node whose key matches;
on a hit the node is moved to the front (`ListMoveToFront`).  Returns the
found source and the rest of the list. -/
def scanSources (k : Nat) : List SrcM → Option (SrcM × List SrcM)
  | [] => none
  | s :: rest =>
    if s.key = k then some (s, rest)
    else
      match scanSources k rest with
      | some (f, l) => some (f, s :: l)
      | none => none

/-- The state effect of `ReturnSource` (gpu_hw_texture_cache.cpp:1209-1241)
on the hash cache: `source->from_hash_cache->last_used_frame =
System::GetFrameNumber()` - an in-place update that never changes the entry
count. -/
def returnSourceTouch (st : TCState) (hk : Nat) : TCState :=
  { st with cache := st.cache.map (fun e => if e.1 = hk then (e.1, st.frame) else e) }

/-- Embedding of `ReturnSource` applied to a possibly-null source pointer:
the body dereferences `source->from_hash_cache` unconditionally, so a null
source (allocation failure propagated from `CreateSource`) is undefined
behaviour, modelled as `Except.error`. -/
def returnSourceD (s? : Option SrcM) (st : TCState) : Except Unit (SrcM × TCState) :=
  match s? with
  | none => Except.error ()
  | some s => Except.ok (s, returnSourceTouch st s.hck)

/-- Embedding of `LookupSource` (gpu_hw_texture_cache.cpp:1190-1207): scan the
page list for the key; on a hit move the node to the front and return it via
`ReturnSource`; on a miss return `ReturnSource(CreateSource(key), ...)` -
with no null check between the two calls. -/
def lookupSource (k : Nat) (st : TCState) : Except Unit (SrcM × TCState) :=
  match scanSources k st.srcs with
  | some (s, rest) => returnSourceD (some s) { st with srcs := s :: rest }
  | none =>
    let out := createSource k st
    returnSourceD out.1 out.2

/-- The source found by the scan has the key that was searched. -/
theorem scanSources_key {k : Nat} :
    ∀ {l : List SrcM} {s : SrcM} {rest : List SrcM},
      scanSources k l = some (s, rest) → s.key = k := by
  intro l
  induction l with
  | nil => intro s rest h; simp [scanSources] at h
  | cons a as ih =>
    intro s rest h
    by_cases ha : a.key = k
    · rw [scanSources, if_pos ha] at h
      cases h
      exact ha
    · rw [scanSources, if_neg ha] at h
      cases hrec : scanSources k as with
      | none => rw [hrec] at h; cases h
      | some p =>
        rw [hrec] at h
        cases p with
        | mk f l2 =>
          cases h
          exact ih hrec

/-- C4: if a `LookupSource` for key `k` succeeded (whether by page-list hit or
by creating the source), an immediately following `LookupSource` with the
same key returns the very same source object (same identity `id`, in
particular the same `SrcM` value) and leaves the hash cache's entry count
unchanged. -/
theorem C4_second_lookup_identical (k : Nat) (st st₁ : TCState) (s : SrcM)
    (h : lookupSource k st = Except.ok (s, st₁)) :
    ∃ st₂, lookupSource k st₁ = Except.ok (s, st₂)
      ∧ st₂.cache.length = st₁.cache.length := by
  have hkey : s.key = k ∧ ∃ rest, st₁.srcs = s :: rest := by
    unfold lookupSource at h
    cases hscan : scanSources k st.srcs with
    | some p =>
      rw [hscan] at h
      cases p with
      | mk f rest =>
        simp only [returnSourceD, Except.ok.injEq, Prod.mk.injEq] at h
        obtain ⟨hs, hst⟩ := h
        subst hs
        refine ⟨scanSources_key hscan, rest, ?_⟩
        rw [← hst]
        rfl
    | none =>
      rw [hscan] at h
      unfold createSource at h
      cases hlc : lookupHashCacheM st.allocOk st.cache st.mem (hashOf k) with
      | mk r cm =>
        rw [hlc] at h
        cases r with
        | none => simp [returnSourceD] at h
        | some hk0 =>
          simp only [returnSourceD, Except.ok.injEq, Prod.mk.injEq] at h
          obtain ⟨hs, hst⟩ := h
          subst hs
          refine ⟨rfl, st.srcs, ?_⟩
          rw [← hst]
          rfl
  obtain ⟨hk, rest, hsrcs⟩ := hkey
  refine ⟨returnSourceTouch { st₁ with srcs := s :: rest } s.hck, ?_, ?_⟩
  · unfold lookupSource
    rw [hsrcs]
    rw [scanSources, if_pos hk]
    rfl
  · simp [returnSourceTouch]

/-- C4 witness: a fresh lookup on an empty state creates the source
`⟨0, 3, 3⟩`; the theorem applied there gives the identical object back with an
unchanged entry count. -/
theorem C4_second_lookup_identical_witness :
    ∃ st₂, lookupSource 3 ⟨[⟨0, 3, 3⟩], [(3, 7)], 1, 1, 7, true⟩
        = Except.ok ((⟨0, 3, 3⟩ : SrcM), st₂)
      ∧ st₂.cache.length = (⟨[⟨0, 3, 3⟩], [(3, 7)], 1, 1, 7, true⟩ : TCState).cache.length :=
  C4_second_lookup_identical 3 ⟨[], [], 0, 0, 7, true⟩
    ⟨[⟨0, 3, 3⟩], [(3, 7)], 1, 1, 7, true⟩ ⟨0, 3, 3⟩ rfl

/-- C9: on a hash-cache miss with texture allocation failure the hash cache
itself behaves as claimed - `LookupHashCache` returns null and leaves the
cache and the memory accounting untouched (first two conjuncts, the first one
for every cache state) - but the failure is NOT surfaced to the caller of
`LookupSource` as a recoverable null: `LookupSource` feeds the null source
straight into `ReturnSource`, which dereferences
`source->from_hash_cache` unconditionally (crash, modelled as
`Except.error`), refuting the last part of the claim. -/
theorem C9_alloc_failure_not_recoverable :
    (∀ (cache : List (Nat × Nat)) (mem hk : Nat),
        ((lookupHashCacheM false cache mem hk).2.1 = cache
          ∧ (lookupHashCacheM false cache mem hk).2.2 = mem))
    ∧ lookupHashCacheM false [] 0 5 = (none, [], 0)
    ∧ lookupSource 5 ⟨[], [], 0, 0, 0, false⟩ = Except.error () := by
  refine ⟨?_, by rfl, by rfl⟩
  intro cache mem hk
  unfold lookupHashCacheM
  cases h : cache.find? (fun e => e.1 = hk) with
  | none => simp
  | some e => simp

/-- Model of a 64-bit content hash: the hash value is abstracted by the exact
sequence of palette entries fed to `XXH3_64bits` (perfect-hash abstraction:
two hashes are equal exactly when the hashed byte sequences are). -/
abbrev HashSeq := List Nat

/-- Embedding of `HashPartialPalette(const u16* palette, u32 min, u32 max)`
(gpu_hw_texture_cache.cpp:1935-1939): the size is `max - min + 1`, and the
hash is taken over `size` entries starting at the palette BASE pointer - the
`min` offset is not applied to the pointer. -/
def hashPartPalette (pal : List Nat) (mn mx : Nat) : HashSeq :=
  pal.take (mx - mn + 1)

/-- Modelled from the spec: `TextureModeHasPalette` (header not in the
sources) - modes 0 (4-bit) and 1 (8-bit) are paletted, 2/3 are direct. -/
def TextureModeHasPalette (mode : Nat) : Bool := mode < 2

/-- Modelled from the spec: `GetPaletteWidth` (header not in the sources) -
16 entries for 4-bit mode, 256 for 8-bit mode. -/
def GetPaletteWidth (mode : Nat) : Nat := if mode = 0 then 16 else 256

/-- The palette-related fields of a `TextureReplacementName`
(gpu_hw_texture_cache.cpp:172-185) used by the matcher. -/
structure TRNamePal where
  pal_hash : HashSeq
  pal_min : Nat
  pal_max : Nat
deriving DecidableEq, Repr

/-- Embedding of `IsMatchingReplacementPalette`
(gpu_hw_texture_cache.cpp:2602-2620): non-paletted modes always match; a
recorded range spanning the whole palette compares against the full palette
hash; a range off the edge of VRAM never matches; otherwise the hash is
recomputed with `HashPartialPalette` over the current palette
(`pal` = entries starting at the CLUT base, `xbase` = CLUT x position). -/
def isMatchingReplacementPalette (fullPalHash : HashSeq) (mode : Nat)
    (xbase : Nat) (pal : List Nat) (name : TRNamePal) : Bool :=
  if !(TextureModeHasPalette mode) then true
  else if name.pal_min = 0 ∧ name.pal_max = GetPaletteWidth mode - 1 then
    decide (name.pal_hash = fullPalHash)
  else if xbase + name.pal_max ≥ VRAM_WIDTH then false
  else decide (hashPartPalette pal name.pal_min name.pal_max = name.pal_hash)

/-- Claim-side definition, from the spec's words: a hash over exactly the
palette entries at indices `pal_min` through `pal_max`. -/
def specSubrangeHash (pal : List Nat) (mn mx : Nat) : HashSeq :=
  (pal.drop mn).take (mx - mn + 1)

/-- C7 counterexample: 4-bit mode, CLUT at x base 0 holding entries
[7, 9, 0, ..., 0], replacement name with recorded sub-range [1,1] (not the
whole palette) and palette hash equal to the hash of entry 0 (the value 7).
The claim says the matcher accepts iff the name's hash equals the hash of the
entries at indices 1..1 - i.e. of [9] - but the code accepts this name whose
hash is the hash of [7]: `HashPartialPalette` hashes from the palette base
without applying the `min` offset. -/
theorem C7_counterexample_matches_wrong_entries :
    isMatchingReplacementPalette [7] 0 0 [7, 9, 0, 0, 0, 0, 0, 0, 0, 0, 0, 0, 0, 0, 0, 0]
        ⟨[7], 1, 1⟩ = true
    ∧ specSubrangeHash [7, 9, 0, 0, 0, 0, 0, 0, 0, 0, 0, 0, 0, 0, 0, 0] 1 1 = [9]
    ∧ ([7] : HashSeq) ≠ [9] := by
  decide

/-- C7 amended: for a paletted mode and a recorded sub-range that does not
span the whole palette and stays inside VRAM, `IsMatchingReplacementPalette`
accepts the replacement iff the name's palette hash equals a freshly computed
hash over the FIRST `pal_max - pal_min + 1` entries of the current palette
(indices 0 through `pal_max - pal_min`, counted from the CLUT base); when the
sub-range spans the whole palette it accepts iff the name's palette hash
equals the full palette hash. -/
theorem C7_amended_partial_palette_match (fullPalHash : HashSeq) (mode xbase : Nat)
    (pal : List Nat) (name : TRNamePal)
    (hpal : TextureModeHasPalette mode = true) :
    (¬ (name.pal_min = 0 ∧ name.pal_max = GetPaletteWidth mode - 1) →
      xbase + name.pal_max < VRAM_WIDTH →
      (isMatchingReplacementPalette fullPalHash mode xbase pal name = true ↔
        name.pal_hash = specSubrangeHash pal 0 (name.pal_max - name.pal_min)))
    ∧ ((name.pal_min = 0 ∧ name.pal_max = GetPaletteWidth mode - 1) →
      (isMatchingReplacementPalette fullPalHash mode xbase pal name = true ↔
        name.pal_hash = fullPalHash)) := by
  constructor
  · intro hnotfull hinside
    unfold isMatchingReplacementPalette
    rw [hpal]
    simp only [Bool.not_true, Bool.false_eq_true, if_false]
    rw [if_neg hnotfull, if_neg (by omega)]
    unfold hashPartPalette specSubrangeHash
    simp only [List.drop_zero, Nat.sub_zero, decide_eq_true_eq]
    constructor
    · intro h; exact h.symm
    · intro h; exact h.symm
  · intro hfull
    unfold isMatchingReplacementPalette
    rw [hpal]
    simp only [Bool.not_true, Bool.false_eq_true, if_false]
    rw [if_pos hfull]
    simp

/-- C7 amended witness: the amended theorem applied to the counterexample
input - 4-bit mode, sub-range [1,1], current palette starting with 7 - and to
a full-range name. -/
theorem C7_amended_partial_palette_match_witness :
    (isMatchingReplacementPalette [7] 0 0 [7, 9, 0, 0, 0, 0, 0, 0, 0, 0, 0, 0, 0, 0, 0, 0]
        ⟨[7], 1, 1⟩ = true ↔
      ([7] : HashSeq) = specSubrangeHash [7, 9, 0, 0, 0, 0, 0, 0, 0, 0, 0, 0, 0, 0, 0, 0] 0 0) :=
  (C7_amended_partial_palette_match [7] 0 0
      [7, 9, 0, 0, 0, 0, 0, 0, 0, 0, 0, 0, 0, 0, 0, 0] ⟨[7], 1, 1⟩ (by decide)).1
    (by decide) (by decide)

/-- Model of `TextureReplacementName` (gpu_hw_texture_cache.cpp:172-204).
`ttype` is the `TextureReplacementType` tag (1 = `TextureFromVRAMWrite`
alias `texupload`, 2 = `TextureFromPage` alias `texpage`); `texture_mode`
indexes `s_texture_replacement_mode_names` (0..7, values ≥ 4 being the
semi-transparent variants). -/
structure TRName where
  src_hash : Nat
  pal_hash : Nat
  src_width : Nat
  src_height : Nat
  ttype : Nat
  texture_mode : Nat
  offset_x : Nat
  offset_y : Nat
  width : Nat
  height : Nat
  pal_min : Nat
  pal_max : Nat
deriving DecidableEq, Repr

/-- Uppercase hex digit for a value below 16, as produced by `{:016X}`. -/
def hexDigitChar (n : Nat) : Char :=
  if n < 10 then Char.ofNat (48 + n) else Char.ofNat (55 + n)

/-- Fixed-width big-endian hex rendering (`{:016X}` is `hexFixed 16`). -/
def hexFixed : Nat → Nat → List Char
  | 0, _ => []
  | k + 1, n => hexFixed k (n / 16) ++ [hexDigitChar (n % 16)]

/-- Decimal rendering of `{}` formatting for unsigned integers. -/
def decChars (n : Nat) : List Char := Nat.toDigits 10 n

/-- Table `s_texture_replacement_mode_names` (gpu_hw_texture_cache.cpp:2151-2152). -/
def modeNameStrs : List (List Char) :=
  [['P', '4'], ['P', '8'], ['C', '1', '6'], ['C', '1', '6'],
   ['S', 'T', 'P', '4'], ['S', 'T', 'P', '8'],
   ['S', 'T', 'C', '1', '6'], ['S', 'T', 'C', '1', '6']]

/-- Embedding of `TextureReplacementName::ToString`
(gpu_hw_texture_cache.cpp:2154-2169): for paletted modes
`type-mode-srchash-palhash-WxH-ox-oy-wxh-Pmin-max`, for direct modes
`type-mode-srchash-WxH-ox-oy-wxh`. -/
def trnameToString (n : TRName) : List Char :=
  let type_str : List Char :=
    if n.ttype = 1 then ['t', 'e', 'x', 'u', 'p', 'l', 'o', 'a', 'd']
    else ['t', 'e', 'x', 'p', 'a', 'g', 'e']
  let mode_str := modeNameStrs.getD n.texture_mode []
  if n.texture_mode % 4 < 2 then
    type_str ++ ['-'] ++ mode_str ++ ['-'] ++ hexFixed 16 n.src_hash ++ ['-'] ++
      hexFixed 16 n.pal_hash ++ ['-'] ++ decChars n.src_width ++ ['x'] ++
      decChars n.src_height ++ ['-'] ++ decChars n.offset_x ++ ['-'] ++
      decChars n.offset_y ++ ['-'] ++ decChars n.width ++ ['x'] ++
      decChars n.height ++ ['-'] ++ ['P'] ++ decChars n.pal_min ++ ['-'] ++
      decChars n.pal_max
  else
    type_str ++ ['-'] ++ mode_str ++ ['-'] ++ hexFixed 16 n.src_hash ++ ['-'] ++
      decChars n.src_width ++ ['x'] ++ decChars n.src_height ++ ['-'] ++
      decChars n.offset_x ++ ['-'] ++ decChars n.offset_y ++ ['-'] ++
      decChars n.width ++ ['x'] ++ decChars n.height

/-- Embedding of `std::string_view::find(ch, start)`: index of the first occurrence of the
character at or after `start`. -/
def findCharFrom (s : List Char) (c : Char) (start : Nat) : Option Nat :=
  match (s.drop start).findIdx? (fun d => d = c) with
  | some i => some (start + i)
  | none => none

/-- Embedding of `std::string_view::substr(pos, len)`. -/
def subStr (s : List Char) (pos len : Nat) : List Char :=
  (s.drop pos).take len

/-- Decimal digit test. -/
def isDecDigit (c : Char) : Bool :=
  decide ('0' ≤ c) && decide (c ≤ '9')

/-- Hexadecimal digit test (both cases accepted by base-16 `from_chars`). -/
def isHexDigitB (c : Char) : Bool :=
  isDecDigit c || (decide ('A' ≤ c) && decide (c ≤ 'F')) ||
    (decide ('a' ≤ c) && decide (c ≤ 'f'))

/-- Value of a hexadecimal digit. -/
def hexDigitVal (c : Char) : Nat :=
  if isDecDigit c then c.toNat - 48
  else if decide ('a' ≤ c) then c.toNat - 87
  else c.toNat - 55

/-- Modelled from the spec: `StringUtil::FromChars<T>` (`common/string_util.h`
is not part of the sources) wraps `std::from_chars`: it parses the longest
leading run of digits of the requested base, fails when that run is empty,
and fails with `result_out_of_range` when the value does not fit the target
type; trailing non-digit characters are not consumed and are not an error. -/
def fromCharsRun (digitOk : Char → Bool) (val : Char → Nat) (base limit : Nat)
    (s : List Char) : Option Nat :=
  let run := s.takeWhile digitOk
  if run.isEmpty then none
  else
    let v := run.foldl (fun acc c => acc * base + val c) 0
    if v < limit then some v else none

/-- Call `StringUtil::FromChars<T>(token)` in base 10 with the target type's
range. -/
def fromCharsDec (limit : Nat) (s : List Char) : Option Nat :=
  fromCharsRun isDecDigit (fun c => c.toNat - 48) 10 limit s

/-- Call `StringUtil::FromChars<u64>(token, 16)`. -/
def fromCharsHex (limit : Nat) (s : List Char) : Option Nat :=
  fromCharsRun isHexDigitB hexDigitVal 16 limit s

/-- Embedding of `TextureReplacementName::Parse`
(gpu_hw_texture_cache.cpp:2171-2386), token by token with the exact
`start_pos`/`end_pos` bookkeeping of the C++ (note every separator search
after the first starts at `start_pos + 1`, the first token is taken with
`substr(start_pos, end_pos)`, and in the direct-16-bit branch the
`src_width` token runs up to the next `-` while the paletted branch searches
for `x`). -/
def parseTRNamePalettedTail (s : List Char) (ttype tmode srcHash palHash sw sh ox oy w e8 : Nat) :
    Option TRName :=
  (findCharFrom s '-' (e8 + 1 + 1)).bind fun e9 =>
  (fromCharsDec (2 ^ 16) (subStr s (e8 + 1) (e9 - (e8 + 1)))).bind fun h =>
  if h = 0 then none else
  (findCharFrom s '-' (e9 + 1 + 1)).bind fun e10 =>
  if s.getD (e9 + 1) ' ' ≠ 'P' then none else
  (fromCharsDec (2 ^ 8) (subStr s (e9 + 1 + 1) (e10 - (e9 + 1) - 1))).bind fun pmin =>
  (fromCharsDec (2 ^ 8) (s.drop (e10 + 1))).bind fun pmax =>
  if pmin > pmax then none else
  some { src_hash := srcHash, pal_hash := palHash, src_width := sw,
         src_height := sh, ttype := ttype, texture_mode := tmode,
         offset_x := ox, offset_y := oy, width := w, height := h,
         pal_min := pmin, pal_max := pmax }

def parseTRNamePalettedMid (s : List Char) (ttype tmode srcHash palHash sw sh e5 : Nat) :
    Option TRName :=
  (findCharFrom s '-' (e5 + 1 + 1)).bind fun e6 =>
  (fromCharsDec (2 ^ 16) (subStr s (e5 + 1) (e6 - (e5 + 1)))).bind fun ox =>
  (findCharFrom s '-' (e6 + 1 + 1)).bind fun e7 =>
  (fromCharsDec (2 ^ 16) (subStr s (e6 + 1) (e7 - (e6 + 1)))).bind fun oy =>
  (findCharFrom s 'x' (e7 + 1 + 1)).bind fun e8 =>
  (fromCharsDec (2 ^ 16) (subStr s (e7 + 1) (e8 - (e7 + 1)))).bind fun w =>
  if w = 0 then none else
  parseTRNamePalettedTail s ttype tmode srcHash palHash sw sh ox oy w e8

def parseTRNamePaletted (s : List Char) (ttype tmode srcHash s3 e3 : Nat) : Option TRName :=
  (if (subStr s s3 (e3 - s3)).length = 16 then some () else none).bind fun _ =>
  (fromCharsHex (2 ^ 64) (subStr s s3 (e3 - s3))).bind fun palHash =>
  (findCharFrom s 'x' (e3 + 1 + 1)).bind fun e4 =>
  (fromCharsDec (2 ^ 16) (subStr s (e3 + 1) (e4 - (e3 + 1)))).bind fun sw =>
  if sw = 0 then none else
  (findCharFrom s '-' (e4 + 1 + 1)).bind fun e5 =>
  (fromCharsDec (2 ^ 16) (subStr s (e4 + 1) (e5 - (e4 + 1)))).bind fun sh =>
  if sh = 0 then none else
  parseTRNamePalettedMid s ttype tmode srcHash palHash sw sh e5

def parseTRNameDirectTail (s : List Char) (ttype tmode srcHash sw sh ox e5 : Nat) :
    Option TRName :=
  (findCharFrom s '-' (e5 + 1 + 1)).bind fun e6 =>
  (fromCharsDec (2 ^ 16) (subStr s (e5 + 1) (e6 - (e5 + 1)))).bind fun oy =>
  (findCharFrom s 'x' (e6 + 1 + 1)).bind fun e7 =>
  (fromCharsDec (2 ^ 16) (subStr s (e6 + 1) (e7 - (e6 + 1)))).bind fun w =>
  if w = 0 then none else
  (fromCharsDec (2 ^ 16) (s.drop (e7 + 1))).bind fun h =>
  if h = 0 then none else
  -- the C++ Parse leaves pal_hash/pal_min/pal_max unassigned in this
  -- branch; the fresh record uses 0 for them
  some { src_hash := srcHash, pal_hash := 0, src_width := sw,
         src_height := sh, ttype := ttype, texture_mode := tmode,
         offset_x := ox, offset_y := oy, width := w, height := h,
         pal_min := 0, pal_max := 0 }

def parseTRNameDirect (s : List Char) (ttype tmode srcHash s3 e3 : Nat) : Option TRName :=
  (fromCharsDec (2 ^ 16) (subStr s s3 (e3 - s3))).bind fun sw =>
  if sw = 0 then none else
  (findCharFrom s '-' (e3 + 1 + 1)).bind fun e4 =>
  (fromCharsDec (2 ^ 16) (subStr s (e3 + 1) (e4 - (e3 + 1)))).bind fun sh =>
  if sh = 0 then none else
  (findCharFrom s '-' (e4 + 1 + 1)).bind fun e5 =>
  (fromCharsDec (2 ^ 16) (subStr s (e4 + 1) (e5 - (e4 + 1)))).bind fun ox =>
  parseTRNameDirectTail s ttype tmode srcHash sw sh ox e5

def parseTRName (s : List Char) : Option TRName :=
  (findCharFrom s '-' 0).bind fun e0 =>
  (if subStr s 0 e0 = ['t', 'e', 'x', 'u', 'p', 'l', 'o', 'a', 'd'] then some 1
   else if subStr s 0 e0 = ['t', 'e', 'x', 'p', 'a', 'g', 'e'] then some 2
   else none).bind fun ttype =>
  (findCharFrom s '-' (e0 + 1 + 1)).bind fun e1 =>
  (modeNameStrs.findIdx? (fun m => m = subStr s (e0 + 1) (e1 - (e0 + 1)))).bind fun tmode =>
  (findCharFrom s '-' (e1 + 1 + 1)).bind fun e2 =>
  if (subStr s (e1 + 1) (e2 - (e1 + 1))).length ≠ 16 then none else
  (fromCharsHex (2 ^ 64) (subStr s (e1 + 1) (e2 - (e1 + 1)))).bind fun srcHash =>
  (findCharFrom s '-' (e2 + 1 + 1)).bind fun e3 =>
  if tmode % 4 < 2 then parseTRNamePaletted s ttype tmode srcHash (e2 + 1) e3
  else parseTRNameDirect s ttype tmode srcHash (e2 + 1) e3

/-- C8: round-tripping `ToString` through `Parse` works for the paletted
modes with both origin types (first two conjuncts: a `texupload`/4-bit and a
`texpage`/8-bit instance with non-zero dimensions and `pal_min ≤ pal_max`
reproduce every field), but FAILS for the 16-bit direct mode with either
origin type: the direct branch of `Parse` takes the `src_width` token up to
the next `-`, swallowing the whole `WxH` token (the paletted branch searches
for `x` there), after which the token cadence is shifted and the final
separator search fails, so `Parse` rejects the formatter's own output -
refuting the claim for the 16-bit direct instances. -/
theorem C8_roundtrip_fails_for_direct16 :
    parseTRName (trnameToString
        { src_hash := 81985529216486895, pal_hash := 18364758544493064720,
          src_width := 256, src_height := 512, ttype := 1, texture_mode := 0,
          offset_x := 32, offset_y := 64, width := 128, height := 256,
          pal_min := 1, pal_max := 15 })
      = some { src_hash := 81985529216486895, pal_hash := 18364758544493064720,
               src_width := 256, src_height := 512, ttype := 1, texture_mode := 0,
               offset_x := 32, offset_y := 64, width := 128, height := 256,
               pal_min := 1, pal_max := 15 }
    ∧ parseTRName (trnameToString
        { src_hash := 255, pal_hash := 77, src_width := 64, src_height := 64,
          ttype := 2, texture_mode := 1, offset_x := 0, offset_y := 0,
          width := 16, height := 32, pal_min := 12, pal_max := 47 })
      = some { src_hash := 255, pal_hash := 77, src_width := 64, src_height := 64,
               ttype := 2, texture_mode := 1, offset_x := 0, offset_y := 0,
               width := 16, height := 32, pal_min := 12, pal_max := 47 }
    ∧ parseTRName (trnameToString
        { src_hash := 255, pal_hash := 0, src_width := 256, src_height := 512,
          ttype := 1, texture_mode := 2, offset_x := 32, offset_y := 64,
          width := 128, height := 256, pal_min := 0, pal_max := 0 })
      = none
    ∧ parseTRName (trnameToString
        { src_hash := 255, pal_hash := 0, src_width := 256, src_height := 512,
          ttype := 2, texture_mode := 2, offset_x := 32, offset_y := 64,
          width := 128, height := 256, pal_min := 0, pal_max := 0 })
      = none
    ∧ trnameToString
        { src_hash := 255, pal_hash := 0, src_width := 256, src_height := 512,
          ttype := 2, texture_mode := 2, offset_x := 32, offset_y := 64,
          width := 128, height := 256, pal_min := 0, pal_max := 0 }
      = ['t', 'e', 'x', 'p', 'a', 'g', 'e', '-', 'C', '1', '6', '-',
         '0', '0', '0', '0', '0', '0', '0', '0', '0', '0', '0', '0', '0', '0', 'F', 'F', '-',
         '2', '5', '6', 'x', '5', '1', '2', '-', '3', '2', '-', '6', '4', '-',
         '1', '2', '8', 'x', '2', '5', '6'] := by
  refine ⟨by decide, by decide, by decide, by decide, by decide⟩

end GPUTextureCache
